import Mathlib

/-!
Verification of the ratio-and-metrics computation engine of the
`financeservice` repository (`app/domain/service/ratio_service.py`).

The Python code is shallowly embedded: `float` amounts become exact
rationals (`ℚ`), Python dicts become association lists with Python's
lookup/insert semantics (`dictLookup`, `dictSet`), fiscal-year strings
("2023") become integers (for four-digit years the string order the code
relies on coincides with numeric order), and `None` becomes `Option.none`.
-/

set_option autoImplicit false

namespace LifV1

/-- One disclosed account row from one filing
(`financial_data` items consumed by `RatioService.get_financial_metrics`).
A SQL `NULL` amount is `none`; the code coerces falsy amounts to `0`
(`float(x) if x else 0`), which on numbers is `Option.getD 0`. -/
structure LineItem where
  bsns_year : Int
  account_nm : String
  thstrm_amount : Option ℚ
  frmtrm_amount : Option ℚ
  bfefrmtrm_amount : Option ℚ
deriving DecidableEq, Repr

/-- The per-account record the aggregator stores:
`{"thstrm": _, "frmtrm": _, "bfefrmtrm": _}`.  Synthesized (implied-year)
entries only carry `"thstrm"` in the Python dict; every later read uses
`.get(key, 0)`, so the missing keys are represented as the value `0`. -/
structure AccountValues where
  thstrm : ℚ
  frmtrm : ℚ
  bfefrmtrm : ℚ
deriving DecidableEq, Repr

/-- Python dict lookup (a dict holds each key once; on an association list
this is the first binding). -/
def dictLookup {α β : Type} [DecidableEq α] (k : α) : List (α × β) → Option β
  | [] => none
  | (k', v) :: rest => if k' = k then some v else dictLookup k rest

/-- Python dict assignment `d[k] = v`: replace the binding in place if the
key is present, append otherwise. -/
def dictSet {α β : Type} [DecidableEq α] (k : α) (v : β) : List (α × β) → List (α × β)
  | [] => [(k, v)]
  | (k', v') :: rest => if k' = k then (k, v) :: rest else (k', v') :: dictSet k v rest

/-- Python `d.keys()`. -/
def dictKeys {α β : Type} (m : List (α × β)) : List α := m.map Prod.fst

/-- A year's account map: `accountName → AccountValues` (a Python dict). -/
abbrev AccountMap := List (String × AccountValues)

/-- The aggregated map: `fiscalYear → AccountMap` (a Python dict). -/
abbrev YearMap := List (Int × AccountMap)

/-- `RatioService._safe_divide`: `None` when the denominator is `0`,
otherwise the quotient (on rationals the generic `except:` arm is dead). -/
def safe_divide (numerator denominator : ℚ) : Option ℚ :=
  if denominator = 0 then none else some (numerator / denominator)

/-- `RatioService._calculate_growth_rate`, verbatim from the source:
zero base → `None`; sign flips → flat `±100.0`; otherwise
`((current - previous) / abs(previous)) * 100`. -/
def calculate_growth_rate (current previous : ℚ) : Option ℚ :=
  if previous = 0 then none
  else if previous < 0 ∧ current > 0 then some 100
  else if previous > 0 ∧ current < 0 then some (-100)
  else some ((current - previous) / |previous| * 100)

/-- The four-rule reference definition of the growth rate, written from the
spec's words (§4.3, rules 1-4 in priority order), to be compared with the
source's `calculate_growth_rate`. -/
def growth_rate_spec (current previous : ℚ) : Option ℚ :=
  if previous = 0 then none
  else if previous < 0 ∧ 0 < current then some (100 : ℚ)
  else if 0 < previous ∧ current < 0 then some (-(100 : ℚ))
  else some ((current - previous) / |previous| * 100)

/-- The guard pattern every ratio in `RatioService._calculate_ratios` uses:
`self._safe_divide(n, d) * 100 if d != 0 else None`. -/
def ratio_percent (n d : ℚ) : Option ℚ :=
  if d ≠ 0 then (safe_divide n d).map (fun v => v * 100) else none

/-- `year_data.get(name, {}).get('thstrm', 0)` in `_calculate_ratios`. -/
def get_thstrm (year_data : AccountMap) (name : String) : ℚ :=
  ((dictLookup name year_data).getD ⟨0, 0, 0⟩).thstrm

/-- `year_data.get(name, {}).get('frmtrm', 0)` in `_calculate_ratios`. -/
def get_frmtrm (year_data : AccountMap) (name : String) : ℚ :=
  ((dictLookup name year_data).getD ⟨0, 0, 0⟩).frmtrm

/-- The dictionary `RatioService._calculate_ratios` returns. -/
structure RatiosOut where
  debt_ratio : Option ℚ
  current_ratio : Option ℚ
  debt_dependency : Option ℚ
  operating_profit_ratio : Option ℚ
  net_profit_ratio : Option ℚ
  roe : Option ℚ
  roa : Option ℚ
  sales_growth : Option ℚ
  operating_profit_growth : Option ℚ
  eps_growth : Option ℚ
deriving DecidableEq, Repr

/-- `RatioService._calculate_ratios` (the reusable calculator). -/
def calculate_ratios (year_data : AccountMap) : RatiosOut :=
  let total_assets := get_thstrm year_data "자산총계"
  let total_liabilities := get_thstrm year_data "부채총계"
  let current_assets := get_thstrm year_data "유동자산"
  let current_liabilities := get_thstrm year_data "유동부채"
  let total_equity := get_thstrm year_data "자본총계"
  let revenue := get_thstrm year_data "매출액"
  let operating_profit := get_thstrm year_data "영업이익"
  let net_income := get_thstrm year_data "당기순이익"
  let prev_revenue := get_frmtrm year_data "매출액"
  let prev_operating_profit := get_frmtrm year_data "영업이익"
  let prev_net_income := get_frmtrm year_data "당기순이익"
  { debt_ratio := ratio_percent total_liabilities total_equity
    current_ratio := ratio_percent current_assets current_liabilities
    debt_dependency := ratio_percent total_liabilities total_assets
    operating_profit_ratio := ratio_percent operating_profit revenue
    net_profit_ratio := ratio_percent net_income revenue
    roe := ratio_percent net_income total_equity
    roa := ratio_percent net_income total_assets
    sales_growth := calculate_growth_rate revenue prev_revenue
    operating_profit_growth := calculate_growth_rate operating_profit prev_operating_profit
    eps_growth := calculate_growth_rate net_income prev_net_income }

/-- `sorted(years, reverse=True)`; for the four-digit year strings the code
handles, Python's string sort coincides with this numeric sort. -/
def sorted_desc (l : List Int) : List Int :=
  List.insertionSort (fun a b => a ≥ b) l

/-- The record stored for one line item:
`float(x) if x else 0` on each of the three amounts. -/
def to_values (item : LineItem) : AccountValues :=
  ⟨item.thstrm_amount.getD 0, item.frmtrm_amount.getD 0, item.bfefrmtrm_amount.getD 0⟩

/-- One step of the aggregation loop in `get_financial_metrics`
(lines 211-225): create the year's dict if absent and add the account's
record only when the account is not yet present (`if account_nm not in
years_data[year]`). -/
def add_item (years_data : YearMap) (item : LineItem) : YearMap :=
  let ymap := (dictLookup item.bsns_year years_data).getD []
  let ymap' :=
    if (dictLookup item.account_nm ymap).isSome then ymap
    else dictSet item.account_nm (to_values item) ymap
  dictSet item.bsns_year ymap' years_data

/-- The `years_data` aggregation over the whole `financial_data` list. -/
def build_years_data (financial_data : List LineItem) : YearMap :=
  financial_data.foldl add_item []

/-- The synthesized map for year `Y-1`: each of `Y`'s accounts mapped to
`{"thstrm": values.get("frmtrm", 0)}` (the other two keys are absent, and
every later read defaults them to `0`). -/
def synth_prior (src : AccountMap) : AccountMap :=
  src.foldl (fun acc p => dictSet p.1 ⟨p.2.frmtrm, 0, 0⟩ acc) []

/-- The synthesized map for year `Y-2`, from `"bfefrmtrm"`. -/
def synth_prior_prior (src : AccountMap) : AccountMap :=
  src.foldl (fun acc p => dictSet p.1 ⟨p.2.bfefrmtrm, 0, 0⟩ acc) []

/-- The body of the `for year in years:` loop (lines 236-261): install the
directly-filed map for the anchor year, then synthesize `year-1` and
`year-2` wholesale, each gated on the target year being absent from
`all_year_data` at that moment. -/
def process_anchor (years_data : YearMap) (all_year_data : YearMap) (year : Int) : YearMap :=
  let acc1 :=
    if (dictLookup year years_data).isSome then
      dictSet year ((dictLookup year years_data).getD []) all_year_data
    else all_year_data
  let acc2 :=
    if (dictLookup (year - 1) acc1).isSome then acc1
    else dictSet (year - 1) (synth_prior ((dictLookup year years_data).getD [])) acc1
  let acc3 :=
    if (dictLookup (year - 2) acc2).isSome then acc2
    else dictSet (year - 2) (synth_prior_prior ((dictLookup year years_data).getD [])) acc2
  acc3

/-- `years = sorted(all_years, reverse=True)[:3]` — the anchor years. -/
def anchor_years (years_data : YearMap) : List Int :=
  (sorted_desc (dictKeys years_data)).take 3

/-- The `all_year_data` accumulation over the anchor years. -/
def build_all_year_data (years_data : YearMap) : YearMap :=
  (anchor_years years_data).foldl (process_anchor years_data) []

/-- `target_years = sorted(all_year_data.keys(), reverse=True)[:3]`. -/
def target_years_of (all_year_data : YearMap) : List Int :=
  (sorted_desc (dictKeys all_year_data)).take 3

/-- The extraction loop `for account_nm, values in year_data.items(): if
account_nm == name: var = values.get("thstrm", 0)` — variable starts at
`0`, the last matching binding wins. -/
def extract_account (name : String) (year_data : AccountMap) : ℚ :=
  year_data.foldl (fun acc p => if p.1 = name then p.2.thstrm else acc) 0

/-- The six per-year values the assembler appends for one target year. -/
structure RatioRow where
  operatingMargin : Option ℚ
  netMargin : Option ℚ
  roe : Option ℚ
  roa : Option ℚ
  debtRatio : Option ℚ
  currentRatio : Option ℚ
deriving DecidableEq, Repr

/-- The inlined ratio computation of `get_financial_metrics`
(lines 276-328), for a year present in `all_year_data`. -/
def inline_ratios (year_data : AccountMap) : RatioRow :=
  let total_assets := extract_account "자산총계" year_data
  let total_liabilities := extract_account "부채총계" year_data
  let current_assets := extract_account "유동자산" year_data
  let current_liabilities := extract_account "유동부채" year_data
  let total_equity := extract_account "자본총계" year_data
  let revenue := extract_account "매출액" year_data
  let operating_profit := extract_account "영업이익" year_data
  let net_income := extract_account "당기순이익" year_data
  { operatingMargin := if revenue ≠ 0 then some (operating_profit / revenue * 100) else none
    netMargin := if revenue ≠ 0 then some (net_income / revenue * 100) else none
    roe := if total_equity ≠ 0 then some (net_income / total_equity * 100) else none
    roa := if total_assets ≠ 0 then some (net_income / total_assets * 100) else none
    debtRatio := if total_equity ≠ 0 then some (total_liabilities / total_equity * 100) else none
    currentRatio := if current_liabilities ≠ 0 then some (current_assets / current_liabilities * 100) else none }

/-- One target year's contribution to the six series: the inlined ratios
when the year is in `all_year_data`, otherwise the all-`None` padding row
(lines 329-336). -/
def ratio_row (all_year_data : YearMap) (year : Int) : RatioRow :=
  match dictLookup year all_year_data with
  | some year_data => inline_ratios year_data
  | none => ⟨none, none, none, none, none, none⟩

/-- One adjacent-pair step of the growth loop (lines 340-375): both years
must be in `all_year_data`, the previous value must be nonzero, and then
`_calculate_growth_rate` runs on the two `"thstrm"` extractions. -/
def growth_pair (all_year_data : YearMap) (p : Int × Int) : Option ℚ × Option ℚ :=
  match dictLookup p.1 all_year_data, dictLookup p.2 all_year_data with
  | some cmap, some pmap =>
      let current_revenue := extract_account "매출액" cmap
      let current_income := extract_account "당기순이익" cmap
      let prev_revenue := extract_account "매출액" pmap
      let prev_income := extract_account "당기순이익" pmap
      (if prev_revenue ≠ 0 then calculate_growth_rate current_revenue prev_revenue else none,
        if prev_income ≠ 0 then calculate_growth_rate current_income prev_income else none)
  | _, _ => (none, none)

/-- The `FinancialMetrics` response group. -/
structure FinancialMetrics where
  operatingMargin : List (Option ℚ)
  netMargin : List (Option ℚ)
  roe : List (Option ℚ)
  roa : List (Option ℚ)
  years : List Int
deriving DecidableEq, Repr

/-- The `GrowthData` response group. -/
structure GrowthData where
  revenueGrowth : List (Option ℚ)
  netIncomeGrowth : List (Option ℚ)
  years : List Int
deriving DecidableEq, Repr

/-- The `DebtLiquidityData` response group. -/
structure DebtLiquidityData where
  debtRatio : List (Option ℚ)
  currentRatio : List (Option ℚ)
  years : List Int
deriving DecidableEq, Repr

/-- The `FinancialMetricsResponse` envelope. -/
structure FinancialMetricsResponse where
  companyName : String
  financialMetrics : FinancialMetrics
  growthData : GrowthData
  debtLiquidityData : DebtLiquidityData
deriving DecidableEq, Repr

/-- `RatioService._empty_metrics_response`. -/
def empty_metrics_response (company_name : String) : FinancialMetricsResponse :=
  { companyName := company_name
    financialMetrics := { operatingMargin := [], netMargin := [], roe := [], roa := [], years := [] }
    growthData := { revenueGrowth := [], netIncomeGrowth := [], years := [] }
    debtLiquidityData := { debtRatio := [], currentRatio := [], years := [] } }

/-- `RatioService.get_financial_metrics` (the multi-year assembler). -/
def get_financial_metrics (company_name : String) (financial_data : List LineItem) :
    FinancialMetricsResponse :=
  let years_data := build_years_data financial_data
  if years_data = [] then empty_metrics_response company_name
  else
    let all_year_data := build_all_year_data years_data
    let target_years := target_years_of all_year_data
    let rows := target_years.map (ratio_row all_year_data)
    let growths := (target_years.zip target_years.tail).map (growth_pair all_year_data)
    { companyName := company_name
      financialMetrics :=
        { operatingMargin := rows.map RatioRow.operatingMargin
          netMargin := rows.map RatioRow.netMargin
          roe := rows.map RatioRow.roe
          roa := rows.map RatioRow.roa
          years := target_years }
      growthData :=
        { revenueGrowth := growths.map Prod.fst
          netIncomeGrowth := growths.map Prod.snd
          years := target_years.dropLast }
      debtLiquidityData :=
        { debtRatio := rows.map RatioRow.debtRatio
          currentRatio := rows.map RatioRow.currentRatio
          years := target_years } }

/-- The single-filing scenario of spec §8: one 2023 filing disclosing
revenue (1000, 800, 600) and net income (100, 80, -50). -/
def scenario_items : List LineItem :=
  [⟨2023, "매출액", some 1000, some 800, some 600⟩,
    ⟨2023, "당기순이익", some 100, some 80, some (-50)⟩]

/-- C1: the growth-rate calculator equals the four-rule reference
definition from the spec, rule by rule in priority order, for every pair
of rational inputs. -/
theorem growth_rate_matches_spec (current previous : ℚ) :
    calculate_growth_rate current previous = growth_rate_spec current previous := by
  unfold calculate_growth_rate growth_rate_spec
  rfl

/-- C7: a ratio computation (the `_safe_divide`-plus-guard pattern used for
every ratio in `_calculate_ratios`) yields `none` exactly when the
denominator is `0`, and otherwise the exact percentage
`(numerator / denominator) * 100`; on rationals it is total, so it can
neither raise nor produce an infinity or NaN. -/
theorem ratio_zero_denominator_null (n d : ℚ) :
    (d = 0 → safe_divide n d = none ∧ ratio_percent n d = none) ∧
      (d ≠ 0 → safe_divide n d = some (n / d) ∧ ratio_percent n d = some (n / d * 100)) := by
  constructor
  · intro h
    simp [safe_divide, ratio_percent, h]
  · intro h
    simp [safe_divide, ratio_percent, h]

/-- Witness for C7 at the concrete inputs `(3, 0)` and `(3, 2)`. -/
theorem ratio_zero_denominator_null_witness :
    (safe_divide 3 0 = none ∧ ratio_percent 3 0 = none) ∧
      (safe_divide 3 2 = some (3 / 2) ∧ ratio_percent 3 2 = some (3 / 2 * 100)) :=
  ⟨(ratio_zero_denominator_null 3 0).1 rfl,
    (ratio_zero_denominator_null 3 2).2 (by norm_num)⟩

/-- C6: on the empty line-item sequence the assembler returns the
canonical empty response — every ratio and growth array empty and every
years list empty — rather than failing. -/
theorem empty_input_empty_series (company_name : String) :
    get_financial_metrics company_name [] = empty_metrics_response company_name := rfl

/-- C9: for the single 2023 filing of spec §8, the assembler targets the
years `[2023, 2022, 2021]`, reports a net margin of exactly `10` for 2023
and for 2022, and a revenue growth of exactly `25` for the 2023←2022
pair. -/
theorem scenario_single_filing :
    (get_financial_metrics "X" scenario_items).financialMetrics.years = [2023, 2022, 2021] ∧
      (get_financial_metrics "X" scenario_items).financialMetrics.netMargin.take 2 =
        [some 10, some 10] ∧
      (get_financial_metrics "X" scenario_items).growthData.revenueGrowth.head? =
        some (some 25) := by
  simp [get_financial_metrics, build_years_data, add_item, to_values, dictLookup, dictSet,
    dictKeys, build_all_year_data, anchor_years, sorted_desc, target_years_of, process_anchor,
    synth_prior, synth_prior_prior, ratio_row, inline_ratios, extract_account, growth_pair,
    calculate_growth_rate, scenario_items, List.insertionSort, List.orderedInsert]
  norm_num

theorem dictLookup_dictSet_self {α β : Type} [DecidableEq α] (k : α) (v : β)
    (m : List (α × β)) : dictLookup k (dictSet k v m) = some v := by
  induction m with
  | nil => simp [dictLookup, dictSet]
  | cons p rest ih =>
    obtain ⟨k', v'⟩ := p
    by_cases h : k' = k <;> simp [dictLookup, dictSet, h, ih]

theorem dictLookup_dictSet_ne {α β : Type} [DecidableEq α] {k k' : α} (h : k' ≠ k) (v : β)
    (m : List (α × β)) : dictLookup k (dictSet k' v m) = dictLookup k m := by
  induction m with
  | nil => simp [dictLookup, dictSet, h]
  | cons p rest ih =>
    obtain ⟨k'', v''⟩ := p
    simp only [dictSet]
    by_cases h2 : k'' = k'
    · simp [dictLookup, h2, h]
    · by_cases h3 : k'' = k <;> simp [dictLookup, h2, h3, Ne.symm h, ih]

theorem dictLookup_isSome_iff_mem {α β : Type} [DecidableEq α] (k : α) (m : List (α × β)) :
    (dictLookup k m).isSome ↔ k ∈ dictKeys m := by
  induction m with
  | nil => simp [dictLookup, dictKeys]
  | cons p rest ih =>
    obtain ⟨k', v'⟩ := p
    by_cases h : k' = k <;> simp [dictLookup, dictKeys, h, ih]
    exact fun h2 => (h h2.symm).elim

theorem dictLookup_dictSet_isSome {α β : Type} [DecidableEq α] (k k' : α) (v : β)
    (m : List (α × β)) (h : (dictLookup k m).isSome) :
    (dictLookup k (dictSet k' v m)).isSome := by
  by_cases h2 : k' = k
  · subst h2
    simp [dictLookup_dictSet_self]
  · rwa [dictLookup_dictSet_ne h2]

/-- C5: in every assembler output, each of the six ratio series is exactly
as long as the years list, each growth series is one shorter (`0` when the
years list has at most one element, by truncated subtraction), and the
growth group's years list is the ratio group's years list without its last
element. -/
theorem series_length_invariant (company_name : String) (financial_data : List LineItem) :
    ((get_financial_metrics company_name financial_data).financialMetrics.operatingMargin.length =
        (get_financial_metrics company_name financial_data).financialMetrics.years.length ∧
      (get_financial_metrics company_name financial_data).financialMetrics.netMargin.length =
        (get_financial_metrics company_name financial_data).financialMetrics.years.length ∧
      (get_financial_metrics company_name financial_data).financialMetrics.roe.length =
        (get_financial_metrics company_name financial_data).financialMetrics.years.length ∧
      (get_financial_metrics company_name financial_data).financialMetrics.roa.length =
        (get_financial_metrics company_name financial_data).financialMetrics.years.length ∧
      (get_financial_metrics company_name financial_data).debtLiquidityData.debtRatio.length =
        (get_financial_metrics company_name financial_data).financialMetrics.years.length ∧
      (get_financial_metrics company_name financial_data).debtLiquidityData.currentRatio.length =
        (get_financial_metrics company_name financial_data).financialMetrics.years.length) ∧
      ((get_financial_metrics company_name financial_data).growthData.revenueGrowth.length =
          (get_financial_metrics company_name financial_data).financialMetrics.years.length - 1 ∧
        (get_financial_metrics company_name financial_data).growthData.netIncomeGrowth.length =
          (get_financial_metrics company_name financial_data).financialMetrics.years.length - 1) ∧
      (get_financial_metrics company_name financial_data).growthData.years =
        (get_financial_metrics company_name financial_data).financialMetrics.years.dropLast := by
  by_cases h : build_years_data financial_data = []
  · simp [get_financial_metrics, h, empty_metrics_response]
  · refine ⟨⟨?_, ?_, ?_, ?_, ?_, ?_⟩, ⟨?_, ?_⟩, ?_⟩ <;>
      simp [get_financial_metrics, h, List.length_zip, List.length_tail]

/-- Two line items for the same fiscal year and the same account name with
different current amounts. -/
def dup_items : List LineItem :=
  [⟨2023, "매출액", some 1, none, none⟩, ⟨2023, "매출액", some 2, none, none⟩]

/-- C2 counterexample: on `dup_items` the aggregated map keeps the FIRST
item's values `⟨1, 0, 0⟩`; the claimed last-write-wins result `⟨2, 0, 0⟩`
is not what the map holds. -/
theorem duplicate_account_keeps_first :
    dictLookup "매출액" ((dictLookup 2023 (build_years_data dup_items)).getD []) =
        some ⟨1, 0, 0⟩ ∧
      dictLookup "매출액" ((dictLookup 2023 (build_years_data dup_items)).getD []) ≠
        some ⟨2, 0, 0⟩ := by
  constructor
  · simp [build_years_data, add_item, to_values, dictLookup, dictSet, dup_items]
  · simp only [build_years_data, add_item, to_values, dictLookup, dictSet, dup_items,
      List.foldl_cons, List.foldl_nil]
    norm_num [dictLookup, dictSet]

theorem foldl_add_item_lookup (l : List LineItem) (yd : YearMap) (y : Int) (a : String) :
    dictLookup a ((dictLookup y (l.foldl add_item yd)).getD []) =
      (dictLookup a ((dictLookup y yd).getD [])).or
        ((l.find? (fun it => it.bsns_year == y && it.account_nm == a)).map to_values) := by
  induction l generalizing yd with
  | nil => simp
  | cons it l ih =>
    rw [List.foldl_cons, ih]
    by_cases hy : it.bsns_year = y
    · by_cases ha : it.account_nm = a
      · have hfind : (it :: l).find? (fun it => it.bsns_year == y && it.account_nm == a) =
            some it := List.find?_cons_of_pos _ (by simp [hy, ha])
        rw [hfind]
        unfold add_item
        rw [hy, ha, dictLookup_dictSet_self]
        cases hl : dictLookup a ((dictLookup y yd).getD []) with
        | some v => simp [hl]
        | none =>
          simp only [hl, Option.isSome_none, Bool.false_eq_true, if_false, ite_false,
            Option.getD_some, Option.none_or]
          simp [dictLookup_dictSet_self, ha]
      · have hfind : (it :: l).find? (fun it => it.bsns_year == y && it.account_nm == a) =
            l.find? (fun it => it.bsns_year == y && it.account_nm == a) :=
          List.find?_cons_of_neg _ (by simp [ha])
        rw [hfind]
        unfold add_item
        rw [hy, dictLookup_dictSet_self, Option.getD_some]
        cases hin : (dictLookup it.account_nm ((dictLookup y yd).getD [])).isSome <;>
          simp [hin, dictLookup_dictSet_ne ha]
    · have hfind : (it :: l).find? (fun it => it.bsns_year == y && it.account_nm == a) =
          l.find? (fun it => it.bsns_year == y && it.account_nm == a) :=
        List.find?_cons_of_neg _ (by simp [hy])
      rw [hfind]
      unfold add_item
      rw [dictLookup_dictSet_ne hy]

/-- C2 amended: the aggregation is FIRST-write-wins — for every input list,
year and account, the aggregated entry is exactly the first line item of
the list carrying that year and account name (later duplicates are
ignored, since the code only inserts when the account is not yet
present). -/
theorem aggregation_first_write_wins (financial_data : List LineItem) (y : Int) (a : String) :
    dictLookup a ((dictLookup y (build_years_data financial_data)).getD []) =
      (financial_data.find? (fun it => it.bsns_year == y && it.account_nm == a)).map
        to_values := by
  have h := foldl_add_item_lookup financial_data [] y a
  simpa [build_years_data, dictLookup] using h

/-- A 2023 filing disclosing only account "A" and a directly-filed 2022
disclosing only account "B" — "A" appears in 2023's prior column but has no
directly-filed 2022 entry. -/
def split_filing_items : List LineItem :=
  [⟨2023, "A", some 1, some 5, some 3⟩, ⟨2022, "B", some 7, some 2, some 4⟩]

/-- C3 counterexample: account "A" is in 2023's map (prior value 5) and has
no directly-filed 2022 entry, so per the claim a synthesized entry for
(2022, "A") should survive; but the aggregated map for 2022 holds no "A" at
all — processing anchor 2022 wholesale-replaced the synthesized map. -/
theorem synthesis_not_per_account :
    dictLookup "A" ((dictLookup 2023 (build_years_data split_filing_items)).getD []) =
        some ⟨1, 5, 3⟩ ∧
      dictLookup "A" ((dictLookup 2022 (build_years_data split_filing_items)).getD []) =
        none ∧
      dictLookup "A"
          ((dictLookup 2022
              (build_all_year_data (build_years_data split_filing_items))).getD []) =
        none := by
  refine ⟨?_, ?_, ?_⟩ <;>
    simp [build_years_data, add_item, to_values, dictLookup, dictSet, dictKeys,
      build_all_year_data, anchor_years, sorted_desc, process_anchor, synth_prior,
      synth_prior_prior, split_filing_items, List.insertionSort, List.orderedInsert]

theorem process_anchor_prev_lookup (years_data acc : YearMap) (year : Int) :
    dictLookup (year - 1) (process_anchor years_data acc year) =
        (dictLookup (year - 1) acc).or
          (some (synth_prior ((dictLookup year years_data).getD []))) ∧
      dictLookup (year - 2) (process_anchor years_data acc year) =
        (dictLookup (year - 2) acc).or
          (some (synth_prior_prior ((dictLookup year years_data).getD []))) := by
  have h1 : year ≠ year - 1 := by omega
  have h2 : year ≠ year - 2 := by omega
  have h3 : year - 1 ≠ year - 2 := by omega
  have h4 : year - 2 ≠ year - 1 := by omega
  have e1 : ∀ (v : AccountMap) (m : YearMap),
      dictLookup (year - 1) (dictSet year v m) = dictLookup (year - 1) m :=
    fun v m => dictLookup_dictSet_ne h1 v m
  have e2 : ∀ (v : AccountMap) (m : YearMap),
      dictLookup (year - 2) (dictSet year v m) = dictLookup (year - 2) m :=
    fun v m => dictLookup_dictSet_ne h2 v m
  have e3 : ∀ (v : AccountMap) (m : YearMap),
      dictLookup (year - 2) (dictSet (year - 1) v m) = dictLookup (year - 2) m :=
    fun v m => dictLookup_dictSet_ne h3 v m
  have e4 : ∀ (v : AccountMap) (m : YearMap),
      dictLookup (year - 1) (dictSet (year - 2) v m) = dictLookup (year - 1) m :=
    fun v m => dictLookup_dictSet_ne h4 v m
  unfold process_anchor
  cases hp : dictLookup (year - 1) acc <;> cases hq : dictLookup (year - 2) acc <;>
    by_cases hy : (dictLookup year years_data).isSome <;>
      simp [hy, hp, hq, e1, e2, e3, e4, dictLookup_dictSet_self, Option.or]

/-- C3 amended: synthesis is gated per YEAR, not per account — while anchor
year `Y` is processed, year `Y-1` (resp. `Y-2`) is left exactly as it was
when it is already a key of the aggregated map
(`Option.or` keeps the `some`), and otherwise receives the wholesale
synthesized map of ALL of `Y`'s accounts' prior (resp. prior-prior) values;
an account missing from an already-present `Y-1` is never added
individually. -/
theorem synthesis_gated_per_year (years_data acc : YearMap) (year : Int) :
    dictLookup (year - 1) (process_anchor years_data acc year) =
        (dictLookup (year - 1) acc).or
          (some (synth_prior ((dictLookup year years_data).getD []))) ∧
      dictLookup (year - 2) (process_anchor years_data acc year) =
        (dictLookup (year - 2) acc).or
          (some (synth_prior_prior ((dictLookup year years_data).getD []))) :=
  process_anchor_prev_lookup years_data acc year

theorem extract_fold_init (name : String) (m : AccountMap) (h : name ∉ dictKeys m) (init : ℚ) :
    m.foldl (fun acc p => if p.1 = name then p.2.thstrm else acc) init = init := by
  induction m generalizing init with
  | nil => rfl
  | cons p rest ih =>
    obtain ⟨k, v⟩ := p
    rw [show dictKeys ((k, v) :: rest) = k :: dictKeys rest from rfl, List.mem_cons] at h
    push_neg at h
    simp [Ne.symm h.1, ih h.2]

theorem extract_account_eq_get_thstrm (name : String) (m : AccountMap)
    (h : (dictKeys m).Nodup) : extract_account name m = get_thstrm m name := by
  induction m with
  | nil => rfl
  | cons p rest ih =>
    obtain ⟨k, v⟩ := p
    have h' : k ∉ dictKeys rest ∧ (dictKeys rest).Nodup := by
      simpa [dictKeys, List.nodup_cons] using h
    by_cases hkn : k = name
    · subst hkn
      unfold extract_account get_thstrm
      simp [dictLookup]
      exact extract_fold_init k rest h'.1 v.thstrm
    · unfold extract_account get_thstrm at ih ⊢
      simp [dictLookup, hkn, ih h'.2]

theorem ratio_percent_eq_inline (n d : ℚ) :
    (if d ≠ 0 then some (n / d * 100) else none) = ratio_percent n d := by
  by_cases h : d = 0 <;> simp [ratio_percent, safe_divide, h]

theorem ratio_paths_agree_aux (m : AccountMap) (h : (dictKeys m).Nodup) :
    (inline_ratios m).operatingMargin = (calculate_ratios m).operating_profit_ratio ∧
      (inline_ratios m).netMargin = (calculate_ratios m).net_profit_ratio ∧
      (inline_ratios m).roe = (calculate_ratios m).roe ∧
      (inline_ratios m).roa = (calculate_ratios m).roa ∧
      (inline_ratios m).debtRatio = (calculate_ratios m).debt_ratio ∧
      (inline_ratios m).currentRatio = (calculate_ratios m).current_ratio := by
  have e : ∀ name, extract_account name m = get_thstrm m name :=
    fun name => extract_account_eq_get_thstrm name m h
  unfold inline_ratios calculate_ratios
  simp only [e]
  exact ⟨ratio_percent_eq_inline _ _, ratio_percent_eq_inline _ _, ratio_percent_eq_inline _ _,
    ratio_percent_eq_inline _ _, ratio_percent_eq_inline _ _, ratio_percent_eq_inline _ _⟩

/-- C4 counterexample (negation of the claim): there is NO year account map
(with the duplicate-free keys every Python dict has) on which the reusable
calculator and the assembler's inlined path disagree on any of the six
shared ratios. -/
theorem no_divergent_year_map :
    ¬ ∃ m : AccountMap, (dictKeys m).Nodup ∧
        ((inline_ratios m).operatingMargin ≠ (calculate_ratios m).operating_profit_ratio ∨
          (inline_ratios m).netMargin ≠ (calculate_ratios m).net_profit_ratio ∨
          (inline_ratios m).roe ≠ (calculate_ratios m).roe ∨
          (inline_ratios m).roa ≠ (calculate_ratios m).roa ∨
          (inline_ratios m).debtRatio ≠ (calculate_ratios m).debt_ratio ∨
          (inline_ratios m).currentRatio ≠ (calculate_ratios m).current_ratio) := by
  rintro ⟨m, hm, hd⟩
  obtain ⟨e1, e2, e3, e4, e5, e6⟩ := ratio_paths_agree_aux m hm
  rcases hd with hx | hx | hx | hx | hx | hx
  · exact hx e1
  · exact hx e2
  · exact hx e3
  · exact hx e4
  · exact hx e5
  · exact hx e6

/-- C4 amended: the two ratio-computation paths have the SAME null policy —
given the same current-amount view they produce identical results for all
six shared ratios, so the claimed divergence does not exist. -/
theorem ratio_paths_agree (m : AccountMap) (h : (dictKeys m).Nodup) :
    (inline_ratios m).operatingMargin = (calculate_ratios m).operating_profit_ratio ∧
      (inline_ratios m).netMargin = (calculate_ratios m).net_profit_ratio ∧
      (inline_ratios m).roe = (calculate_ratios m).roe ∧
      (inline_ratios m).roa = (calculate_ratios m).roa ∧
      (inline_ratios m).debtRatio = (calculate_ratios m).debt_ratio ∧
      (inline_ratios m).currentRatio = (calculate_ratios m).current_ratio :=
  ratio_paths_agree_aux m h

/-- Witness for C4's amended theorem at a concrete one-account map. -/
theorem ratio_paths_agree_witness :
    (inline_ratios [("매출액", ⟨10, 0, 0⟩)]).operatingMargin =
        (calculate_ratios [("매출액", ⟨10, 0, 0⟩)]).operating_profit_ratio ∧
      (inline_ratios [("매출액", ⟨10, 0, 0⟩)]).netMargin =
        (calculate_ratios [("매출액", ⟨10, 0, 0⟩)]).net_profit_ratio ∧
      (inline_ratios [("매출액", ⟨10, 0, 0⟩)]).roe =
        (calculate_ratios [("매출액", ⟨10, 0, 0⟩)]).roe ∧
      (inline_ratios [("매출액", ⟨10, 0, 0⟩)]).roa =
        (calculate_ratios [("매출액", ⟨10, 0, 0⟩)]).roa ∧
      (inline_ratios [("매출액", ⟨10, 0, 0⟩)]).debtRatio =
        (calculate_ratios [("매출액", ⟨10, 0, 0⟩)]).debt_ratio ∧
      (inline_ratios [("매출액", ⟨10, 0, 0⟩)]).currentRatio =
        (calculate_ratios [("매출액", ⟨10, 0, 0⟩)]).current_ratio :=
  ratio_paths_agree [("매출액", ⟨10, 0, 0⟩)] (by simp [dictKeys])

theorem process_anchor_lookup_untouched (years_data acc : YearMap) (z w : Int)
    (hw1 : w ≠ z) (hw2 : w ≠ z - 1) (hw3 : w ≠ z - 2) :
    dictLookup w (process_anchor years_data acc z) = dictLookup w acc := by
  have e1 : ∀ (v : AccountMap) (m : YearMap), dictLookup w (dictSet z v m) = dictLookup w m :=
    fun v m => dictLookup_dictSet_ne (Ne.symm hw1) v m
  have e2 : ∀ (v : AccountMap) (m : YearMap),
      dictLookup w (dictSet (z - 1) v m) = dictLookup w m :=
    fun v m => dictLookup_dictSet_ne (Ne.symm hw2) v m
  have e3 : ∀ (v : AccountMap) (m : YearMap),
      dictLookup w (dictSet (z - 2) v m) = dictLookup w m :=
    fun v m => dictLookup_dictSet_ne (Ne.symm hw3) v m
  have f1 : ∀ (v : AccountMap) (m : YearMap),
      dictLookup (z - 1) (dictSet z v m) = dictLookup (z - 1) m :=
    fun v m => dictLookup_dictSet_ne (by omega) v m
  have f2 : ∀ (v : AccountMap) (m : YearMap),
      dictLookup (z - 2) (dictSet z v m) = dictLookup (z - 2) m :=
    fun v m => dictLookup_dictSet_ne (by omega) v m
  have f3 : ∀ (v : AccountMap) (m : YearMap),
      dictLookup (z - 2) (dictSet (z - 1) v m) = dictLookup (z - 2) m :=
    fun v m => dictLookup_dictSet_ne (by omega) v m
  unfold process_anchor
  cases hp : dictLookup (z - 1) acc <;> cases hq : dictLookup (z - 2) acc <;>
    by_cases hy : (dictLookup z years_data).isSome <;>
      simp [hy, hp, hq, e1, e2, e3, f1, f2, f3]

theorem process_anchor_lookup_self (years_data acc : YearMap) (z : Int)
    (hz : (dictLookup z years_data).isSome) :
    dictLookup z (process_anchor years_data acc z) = dictLookup z years_data := by
  obtain ⟨v, hv⟩ := Option.isSome_iff_exists.mp hz
  have g1 : ∀ (w : AccountMap) (m : YearMap),
      dictLookup z (dictSet (z - 1) w m) = dictLookup z m :=
    fun w m => dictLookup_dictSet_ne (by omega) w m
  have g2 : ∀ (w : AccountMap) (m : YearMap),
      dictLookup z (dictSet (z - 2) w m) = dictLookup z m :=
    fun w m => dictLookup_dictSet_ne (by omega) w m
  have f1 : ∀ (v : AccountMap) (m : YearMap),
      dictLookup (z - 1) (dictSet z v m) = dictLookup (z - 1) m :=
    fun v m => dictLookup_dictSet_ne (by omega) v m
  have f2 : ∀ (v : AccountMap) (m : YearMap),
      dictLookup (z - 2) (dictSet z v m) = dictLookup (z - 2) m :=
    fun v m => dictLookup_dictSet_ne (by omega) v m
  have f3 : ∀ (v : AccountMap) (m : YearMap),
      dictLookup (z - 2) (dictSet (z - 1) v m) = dictLookup (z - 2) m :=
    fun v m => dictLookup_dictSet_ne (by omega) v m
  unfold process_anchor
  cases hp : dictLookup (z - 1) acc <;> cases hq : dictLookup (z - 2) acc <;>
    simp [hz, hv, hp, hq, f1, f2, f3, g1, g2, dictLookup_dictSet_self]

theorem process_anchor_isSome_mono (years_data acc : YearMap) (z w : Int)
    (h : (dictLookup w acc).isSome) :
    (dictLookup w (process_anchor years_data acc z)).isSome := by
  have step : ∀ (k : Int) (v : AccountMap) (m : YearMap),
      (dictLookup w m).isSome → (dictLookup w (dictSet k v m)).isSome :=
    fun k v m hm => dictLookup_dictSet_isSome w k v m hm
  unfold process_anchor
  dsimp only
  split <;> split <;> split <;>
    first
      | exact h
      | exact step _ _ _ h
      | exact step _ _ _ (step _ _ _ h)
      | exact step _ _ _ (step _ _ _ (step _ _ _ h))

theorem foldl_process_anchor_isSome (years_data : YearMap) (l : List Int) (acc : YearMap)
    (w : Int) (h : (dictLookup w acc).isSome) :
    (dictLookup w (l.foldl (process_anchor years_data) acc)).isSome := by
  induction l generalizing acc with
  | nil => exact h
  | cons z l ih => exact ih _ (process_anchor_isSome_mono years_data acc z w h)

theorem foldl_process_anchor_le_preserve (years_data : YearMap) (y : Int)
    (hy : (dictLookup y years_data).isSome) (l : List Int) (hl : ∀ z ∈ l, z ≤ y)
    (acc : YearMap) (hacc : dictLookup y acc = dictLookup y years_data) :
    dictLookup y (l.foldl (process_anchor years_data) acc) = dictLookup y years_data := by
  induction l generalizing acc with
  | nil => exact hacc
  | cons z l ih =>
    have hz := hl z (List.mem_cons_self z l)
    have hstep : dictLookup y (process_anchor years_data acc z) = dictLookup y years_data := by
      by_cases hzy : z = y
      · subst hzy
        exact process_anchor_lookup_self years_data acc z hy
      · have hlt : z < y := lt_of_le_of_ne hz hzy
        rw [process_anchor_lookup_untouched years_data acc z y (by omega) (by omega) (by omega)]
        exact hacc
    exact ih (fun a ha => hl a (List.mem_cons_of_mem _ ha)) _ hstep

/-- Four consecutive directly-filed years: 2022 is filed (current value 5
for account "A") but is outside the three anchor years 2025-2023, while
2024's prior-prior column carries 999 for "A". -/
def four_year_items : List LineItem :=
  [⟨2025, "A", some 1, some 1, some 1⟩, ⟨2024, "A", some 2, some 2, some 999⟩,
    ⟨2023, "A", some 3, some 3, some 3⟩, ⟨2022, "A", some 5, some 5, some 5⟩]

/-- C8 counterexample: year 2022 has a directly-filed entry for "A" with
current value 5, yet the final aggregated map carries the implied
reconstruction 999 (synthesized from 2024's prior-prior column) for
(2022, "A") — the directly-filed value does not take precedence. -/
theorem direct_filing_not_always_precedent :
    dictLookup "A" ((dictLookup 2022 (build_years_data four_year_items)).getD []) =
        some ⟨5, 5, 5⟩ ∧
      dictLookup "A"
          ((dictLookup 2022
              (build_all_year_data (build_years_data four_year_items))).getD []) =
        some ⟨999, 0, 0⟩ ∧
      (⟨999, 0, 0⟩ : AccountValues) ≠ ⟨5, 5, 5⟩ := by
  refine ⟨?_, ?_, ?_⟩ <;>
    simp [build_years_data, add_item, to_values, dictLookup, dictSet, dictKeys,
      build_all_year_data, anchor_years, sorted_desc, process_anchor, synth_prior,
      synth_prior_prior, four_year_items, List.insertionSort, List.orderedInsert]

/-- C8 amended: directly-filed values take precedence only for ANCHOR years
(the at-most-3 most recent filed years): an anchor year's final aggregated
map is exactly its directly-filed map, because its processing step installs
the filed map wholesale and every later (smaller) anchor only touches
strictly smaller years; a filed year outside the anchors never has its
filed map installed and can carry an implied reconstruction instead. -/
theorem anchor_years_carry_filed_map (years_data : YearMap) (y : Int)
    (hy : y ∈ anchor_years years_data) :
    dictLookup y (build_all_year_data years_data) = dictLookup y years_data := by
  have hmem : y ∈ dictKeys years_data := by
    have h1 : y ∈ sorted_desc (dictKeys years_data) :=
      (List.take_sublist _ _).subset hy
    simpa [sorted_desc, List.mem_insertionSort] using h1
  have hsome : (dictLookup y years_data).isSome := (dictLookup_isSome_iff_mem y _).mpr hmem
  obtain ⟨l₁, l₂, hsplit⟩ := List.append_of_mem hy
  have hsorted : (anchor_years years_data).Pairwise (fun a b => a ≥ b) :=
    (List.sorted_insertionSort _ _).sublist (List.take_sublist _ _)
  rw [hsplit] at hsorted
  have hle : ∀ z ∈ l₂, z ≤ y := by
    have h2 := (List.pairwise_append.mp hsorted).2.1
    intro z hz
    exact (List.pairwise_cons.mp h2).1 z hz
  unfold build_all_year_data
  rw [hsplit, List.foldl_append, List.foldl_cons]
  exact foldl_process_anchor_le_preserve years_data y hsome l₂ hle _
    (process_anchor_lookup_self years_data _ y hsome)

/-- Witness for C8's amended theorem on a one-filing aggregated map. -/
theorem anchor_years_carry_filed_map_witness :
    dictLookup 2023 (build_all_year_data [(2023, [("A", ⟨1, 2, 3⟩)])]) =
      dictLookup 2023 [(2023, [("A", ⟨1, 2, 3⟩)])] :=
  anchor_years_carry_filed_map [(2023, [("A", ⟨1, 2, 3⟩)])] 2023
    (by simp [anchor_years, sorted_desc, dictKeys, List.insertionSort, List.orderedInsert])

theorem dictSet_ne_nil {α β : Type} [DecidableEq α] (k : α) (v : β) (m : List (α × β)) :
    dictSet k v m ≠ [] := by
  cases m with
  | nil => simp [dictSet]
  | cons p rest =>
    obtain ⟨k', v'⟩ := p
    by_cases h : k' = k <;> simp [dictSet, h]

theorem add_item_ne_nil (yd : YearMap) (it : LineItem) : add_item yd it ≠ [] := by
  unfold add_item
  exact dictSet_ne_nil _ _ _

theorem foldl_add_item_ne_nil (l : List LineItem) (yd : YearMap) (h : yd ≠ []) :
    l.foldl add_item yd ≠ [] := by
  induction l generalizing yd with
  | nil => exact h
  | cons it l ih => exact ih _ (add_item_ne_nil yd it)

/-- C10: for every non-empty line-item input the target-year list has
length exactly 3, and every target year is a key of the aggregated map — so
the assembler's branches that pad a target year absent from the map with
nulls (both in the ratio loop and in the growth loop) are unreachable. -/
theorem target_years_always_three (financial_data : List LineItem) (h : financial_data ≠ []) :
    (target_years_of (build_all_year_data (build_years_data financial_data))).length = 3 ∧
      ∀ y ∈ target_years_of (build_all_year_data (build_years_data financial_data)),
        (dictLookup y
          (build_all_year_data (build_years_data financial_data))).isSome := by
  have hne : build_years_data financial_data ≠ [] := by
    cases financial_data with
    | nil => exact absurd rfl h
    | cons it l =>
      unfold build_years_data
      rw [List.foldl_cons]
      exact foldl_add_item_ne_nil l _ (add_item_ne_nil [] it)
  have hanch : anchor_years (build_years_data financial_data) ≠ [] := by
    unfold anchor_years
    intro e
    rcases List.take_eq_nil_iff.mp e with h3 | h3
    · exact absurd h3 (by norm_num)
    · have h4 := List.length_insertionSort (fun a b => a ≥ b)
        (dictKeys (build_years_data financial_data))
      rw [sorted_desc] at h3
      rw [h3] at h4
      have h5 : dictKeys (build_years_data financial_data) = [] :=
        List.length_eq_zero.mp h4.symm
      cases hm : build_years_data financial_data with
      | nil => exact hne hm
      | cons p rest =>
        rw [hm] at h5
        simp [dictKeys] at h5
  obtain ⟨M, rest, hM⟩ := List.exists_cons_of_ne_nil hanch
  have hMmem : M ∈ dictKeys (build_years_data financial_data) := by
    have h1 : M ∈ anchor_years (build_years_data financial_data) := by
      rw [hM]
      exact List.mem_cons_self M rest
    have h2 : M ∈ sorted_desc (dictKeys (build_years_data financial_data)) :=
      (List.take_sublist _ _).subset h1
    simpa [sorted_desc, List.mem_insertionSort] using h2
  have hMsome : (dictLookup M (build_years_data financial_data)).isSome :=
    (dictLookup_isSome_iff_mem M _).mpr hMmem
  have hfirst := process_anchor_prev_lookup (build_years_data financial_data) [] M
  have hs1 : (dictLookup M
      (process_anchor (build_years_data financial_data) [] M)).isSome := by
    rw [process_anchor_lookup_self _ _ M hMsome]
    exact hMsome
  have hs2 : (dictLookup (M - 1)
      (process_anchor (build_years_data financial_data) [] M)).isSome := by
    rw [hfirst.1]
    simp [dictLookup, Option.or]
  have hs3 : (dictLookup (M - 2)
      (process_anchor (build_years_data financial_data) [] M)).isSome := by
    rw [hfirst.2]
    simp [dictLookup, Option.or]
  have hall : ∀ w, (dictLookup w
        (process_anchor (build_years_data financial_data) [] M)).isSome →
      (dictLookup w
        (build_all_year_data (build_years_data financial_data))).isSome := by
    intro w hw
    unfold build_all_year_data
    rw [hM, List.foldl_cons]
    exact foldl_process_anchor_isSome _ rest _ w hw
  have hmem3 : ∀ w, (dictLookup w
        (build_all_year_data (build_years_data financial_data))).isSome →
      w ∈ dictKeys (build_all_year_data (build_years_data financial_data)) :=
    fun w hw => (dictLookup_isSome_iff_mem w _).mp hw
  have hcard : 3 ≤ (dictKeys (build_all_year_data (build_years_data financial_data))).length := by
    have hsub : ({M, M - 1, M - 2} : Finset Int) ⊆
        (dictKeys (build_all_year_data (build_years_data financial_data))).toFinset := by
      intro x hx
      rw [Finset.mem_insert, Finset.mem_insert, Finset.mem_singleton] at hx
      rcases hx with rfl | rfl | rfl <;>
        simpa [List.mem_toFinset] using hmem3 _ (hall _ (by first | exact hs1 | exact hs2 | exact hs3))
    have h1 : ({M, M - 1, M - 2} : Finset Int).card = 3 := by
      rw [Finset.card_insert_of_not_mem
        (by simp only [Finset.mem_insert, Finset.mem_singleton]; omega)]
      rw [Finset.card_insert_of_not_mem (by simp only [Finset.mem_singleton]; omega)]
      simp
    calc 3 = ({M, M - 1, M - 2} : Finset Int).card := h1.symm
      _ ≤ (dictKeys (build_all_year_data (build_years_data financial_data))).toFinset.card :=
          Finset.card_le_card hsub
      _ ≤ (dictKeys (build_all_year_data (build_years_data financial_data))).length :=
          List.toFinset_card_le _
  constructor
  · unfold target_years_of sorted_desc
    rw [List.length_take, List.length_insertionSort]
    omega
  · intro y hyy
    have h1 : y ∈ dictKeys (build_all_year_data (build_years_data financial_data)) := by
      have h2 : y ∈ sorted_desc
          (dictKeys (build_all_year_data (build_years_data financial_data))) :=
        (List.take_sublist _ _).subset hyy
      simpa [sorted_desc, List.mem_insertionSort] using h2
    exact (dictLookup_isSome_iff_mem y _).mpr h1

/-- Witness for C10 at the concrete single-filing input: the target-year
list has length 3 and the target year 2023 is a key of the aggregated
map. -/
theorem target_years_always_three_witness :
    (target_years_of (build_all_year_data (build_years_data scenario_items))).length = 3 ∧
      (dictLookup 2023 (build_all_year_data (build_years_data scenario_items))).isSome :=
  ⟨(target_years_always_three scenario_items (by simp [scenario_items])).1,
    (target_years_always_three scenario_items (by simp [scenario_items])).2 2023
      (by simp [target_years_of, sorted_desc, dictKeys, build_all_year_data, anchor_years,
        process_anchor, build_years_data, add_item, to_values, dictSet, dictLookup,
        synth_prior, synth_prior_prior, scenario_items, List.insertionSort,
        List.orderedInsert])⟩

end LifV1
